import Mathlib

/-!
Verification development for the vehicle-verification pipeline
(`interface/main.py`, `interface/ml_utils.py`, `interface/student_db.py`).

Numeric values carried by the telemetry wire format and the ML confidence
scores are Python floats in the source; they are modelled here as exact
rationals (`ℚ`).  Every comparison the source performs on them (equality
against the sentinel constants `-1.0` / `-999.0`, the strict threshold
comparison `distance_value < DISTANCE_THRESHOLD`, and `round(x, k)`) is
exact-decimal, so the rational model is faithful on all inputs considered
here.  Strings are modelled at the level of their character lists so that
every parsing function is structurally recursive and kernel-evaluable.
-/

/-! ### Character/string primitives used by the parser embedding -/

/-- Strip leading and trailing whitespace: embeds Python `str.strip()`
(as used in `main.py` lines 78 and 105). -/
def trimChars (l : List Char) : List Char :=
  ((l.dropWhile Char.isWhitespace).reverse.dropWhile Char.isWhitespace).reverse

/-- Split a character list at every occurrence of `sep`: embeds Python
`str.split(sep)` for a one-character separator (`line.split(',')`,
`part_str.split(':')` in `main.py`).  On the empty list it returns `[[]]`,
matching `"".split(',') == ['']`. -/
def splitOnChar (sep : Char) : List Char → List (List Char)
  | [] => [[]]
  | c :: rest =>
    let r := splitOnChar sep rest
    if c = sep then [] :: r
    else
      match r with
      | [] => [[c]]
      | g :: gs => (c :: g) :: gs

/-- Last field of a colon-split: embeds `part_str.split(':')[-1]`
(`main.py` line 78). -/
def afterLastColon (l : List Char) : List Char :=
  (splitOnChar ':' l).getLastD []

/-! ### The numeric-substring search of `_extract_and_convert`

`main.py` line 85 runs `re.search(r'[-+]?\d*\.?\d+', str_value)` and keeps
the leftmost match.  The functions below implement exactly that regex's
backtracking semantics: at a given position, an optional sign, then a
greedy digit run, then an optional `.` that is kept only when at least one
digit follows it. -/

/-- Match of `\d*\.?\d+` starting exactly at the head of `l` (greedy,
with the backtracking behaviour of Python `re`): a digit run optionally
followed by `.` and a second digit run; a match with no integer part is
allowed only in the `.digits` form; no digits at all means no match. -/
def numTokenAt (l : List Char) : Option (List Char) :=
  let d1 := l.takeWhile Char.isDigit
  match l.drop d1.length with
  | '.' :: r2 =>
    let d2 := r2.takeWhile Char.isDigit
    if d2 ≠ [] then some (d1 ++ '.' :: d2)
    else if d1 ≠ [] then some d1 else none
  | _ => if d1 ≠ [] then some d1 else none

/-- Leftmost match of `[-+]?\d*\.?\d+` in `l`: embeds
`re.search(r'[-+]?\d*\.?\d+', str_value)` of `main.py` line 85.  A sign
character participates in a match only when a numeric token starts right
after it. -/
def searchNum : List Char → Option (List Char)
  | [] => none
  | c :: rest =>
    let cand :=
      if c = '-' ∨ c = '+' then (numTokenAt rest).map (fun t => c :: t)
      else numTokenAt (c :: rest)
    match cand with
    | some t => some t
    | none => searchNum rest

/-- Value of a digit list read in base 10. -/
def digitsVal (l : List Char) : ℕ :=
  l.foldl (fun n c => 10 * n + (c.toNat - 48)) 0

/-- Decompose a token matched by `searchNum` into
(negative sign?, integer-part digits, fraction digits). -/
def tokenParts (t : List Char) : Bool × List Char × List Char :=
  let signAndRest : Bool × List Char :=
    match t with
    | '-' :: r => (true, r)
    | '+' :: r => (false, r)
    | _ => (false, t)
  let ip := signAndRest.2.takeWhile Char.isDigit
  let fp :=
    match signAndRest.2.drop ip.length with
    | '.' :: r => r.takeWhile Char.isDigit
    | _ => []
  (signAndRest.1, ip, fp)

/-- Numeric value of a matched token: embeds Python `float(str_value)`
applied to the regex match (`main.py` line 94), as an exact decimal
rational. -/
def tokenToRat (t : List Char) : ℚ :=
  let p := tokenParts t
  let mag : ℚ := (digitsVal (p.2.1 ++ p.2.2) : ℚ) / 10 ^ p.2.2.length
  if p.1 then -mag else mag

/-! ### The serial-line parser (`main.py` lines 71–126) -/

/-- Embeds `_extract_and_convert(part_str, sentinel_value)` of
`main.py` lines 71–97: take the text after the last `:`, strip it, map the
exact token `"N/A"` to the sentinel, otherwise extract the leftmost numeric
substring and convert it; when no numeric substring exists, return the
sentinel.  (After the regex extraction the `float` conversion can no longer
raise, so the `except ValueError` branch is unreachable.) -/
def extract_and_convert (part : List Char) (sentinel : ℚ) : ℚ :=
  let sv := trimChars (afterLastColon part)
  if sv = "N/A".data then sentinel
  else
    match searchNum sv with
    | some tok => tokenToRat tok
    | none => sentinel

/-- Embeds `parse_serial_line` of `main.py` lines 99–126: strip the line,
split on commas, demand exactly three fields, convert each field with its
sentinel (`-1.0` for distance and battery, `-999.0` for temperature), and
reject the entire line when the distance field came out as its sentinel.
The Python function returns `(None, None, None)` for a rejected line; that
is modelled as `none`. -/
def parse_serial_line (line : String) : Option (ℚ × ℚ × ℚ) :=
  match splitOnChar ',' (trimChars line.data) with
  | [p0, p1, p2] =>
    let distance_value := extract_and_convert p0 (-1)
    let temp := extract_and_convert p1 (-999)
    let battery := extract_and_convert p2 (-1)
    if distance_value = -1 then none
    else some (distance_value, temp, battery)
  | _ => none

/-! ### Python `round` and the published snapshot (`main.py` lines 52–67) -/

/-- Round-half-to-even on a rational, embedding Python's `round` on the
exact decimal values that occur here. -/
def pyRoundHalfEven (q : ℚ) : ℤ :=
  let f := Int.floor q
  let r := q - f
  if r < 1 / 2 then f
  else if 1 / 2 < r then f + 1
  else if f % 2 = 0 then f else f + 1

/-- Embeds Python `round(q, k)` (ties to even) on exact decimals. -/
def pyRoundTo (k : ℕ) (q : ℚ) : ℚ :=
  (pyRoundHalfEven (q * 10 ^ k) : ℚ) / 10 ^ k

/-- Shape of the JSON object written by `save_latest_sensor_data`
(`main.py` lines 56–62): `None` fields are `Option.none`. -/
structure SensorSnapshot where
  temperature : Option ℚ
  battery : Option ℚ
  distance : ℚ
  lastUpdate : ℚ
  deriving DecidableEq, Repr

/-- Embeds the dictionary built by `save_latest_sensor_data` (`main.py`
lines 52–62): temperature is published as `None` exactly when it equals the
sentinel `-999.0`, battery as `None` exactly when it equals `-1.0`, the
distance is published rounded as-is, and `last_update` records the wall
clock at write time (passed here as `now`). -/
def mkSensorJson (temp battery distance_value now : ℚ) : SensorSnapshot :=
  { temperature := if temp ≠ -999 then some (pyRoundTo 1 temp) else none
    battery := if battery ≠ -1 then some (pyRoundTo 1 battery) else none
    distance := pyRoundTo 1 distance_value
    lastUpdate := now }

/-- One publish to the external snapshot resource: `json.dump(data, f)`
over a file opened with mode `"w"` (`main.py` lines 64–65) replaces the
resource wholesale, reading nothing from its previous state.  The resource
state is `Option SensorSnapshot` (`none` before the first ever write). -/
def publishStep (temp battery distance_value now : ℚ)
    (_prev : Option SensorSnapshot) : Option SensorSnapshot :=
  some (mkSensorJson temp battery distance_value now)

/-! ### The recognition adapter `ocr_license_plate` (`ml_utils.py` 103–159)

The external EasyOCR engine is abstracted as its output: a list of
`(text, confidence)` spans in engine order.  The helper recursions below
carry an explicit fuel argument so that they are structurally recursive
and kernel-evaluable; every wrapper passes the input length as fuel, which
each recursion provably never exhausts (each step consumes at least one
character). -/

/-- Clean one OCR span: embeds
`''.join(c for c in text if c.isalnum()).upper()` (`ml_utils.py` line 121),
for the ASCII character range exercised by license plates. -/
def cleanSpan (s : String) : List Char :=
  (s.data.filter Char.isAlphanum).map Char.toUpper

/-- Spans that survive cleaning, paired with their confidences: embeds the
`texts`/`confs` accumulation of `ml_utils.py` lines 117–124 (a span whose
cleaned form is empty contributes neither text nor confidence). -/
def usableSpans (spans : List (String × ℚ)) : List (List Char × ℚ) :=
  spans.filterMap fun p =>
    let c := cleanSpan p.1
    if c = [] then none else some (c, p.2)

/-- Fueled worker for `replaceAll`. -/
def replaceAllF (pat repl : List Char) : ℕ → List Char → List Char
  | 0, l => l
  | _ + 1, [] => []
  | fuel + 1, c :: rest =>
    if pat ≠ [] ∧ pat.isPrefixOf (c :: rest) then
      repl ++ replaceAllF pat repl fuel ((c :: rest).drop pat.length)
    else c :: replaceAllF pat repl fuel rest

/-- Replace every non-overlapping occurrence of `pat`, left to right:
embeds Python `str.replace` as used in `ml_utils.py` lines 136–138. -/
def replaceAll (pat repl l : List Char) : List Char :=
  replaceAllF pat repl l.length l

/-- Character class `[A-Z0-9]` of the final-extraction regex
(`ml_utils.py` line 142). -/
def isAZ09 (c : Char) : Bool :=
  (65 ≤ c.toNat && c.toNat ≤ 90) || (48 ≤ c.toNat && c.toNat ≤ 57)

/-- Fueled worker for `splitRuns`. -/
def splitRunsF : ℕ → List Char → List (List Char)
  | 0, _ => []
  | _ + 1, [] => []
  | fuel + 1, c :: rest =>
    if isAZ09 c then
      (c :: rest.takeWhile isAZ09) :: splitRunsF fuel (rest.dropWhile isAZ09)
    else splitRunsF fuel rest

/-- Maximal runs of `[A-Z0-9]` characters, in order. -/
def splitRuns (l : List Char) : List (List Char) :=
  splitRunsF l.length l

/-- Fueled worker for `chunk68`. -/
def chunk68F : ℕ → List Char → List (List Char)
  | 0, _ => []
  | fuel + 1, run =>
    if run.length < 6 then [] else run.take 8 :: chunk68F fuel (run.drop 8)

/-- Greedy matches of `[A-Z0-9]{6,8}` inside one run: the scanner keeps
taking up to eight characters while at least six remain. -/
def chunk68 (run : List Char) : List (List Char) :=
  chunk68F run.length run

/-- Embeds `re.findall(r'[A-Z0-9]{6,8}', cleaned_text)`
(`ml_utils.py` line 142): leftmost, non-overlapping, greedy matches. -/
def findall68 (l : List Char) : List (List Char) :=
  ((splitRuns l).map chunk68).flatten

/-- Embeds `max(matches, key=len)` (`ml_utils.py` line 146): the first
element of maximal length. -/
def maxByLen (l : List (List Char)) : List Char :=
  match l with
  | [] => []
  | x :: xs => xs.foldl (fun acc y => if acc.length < y.length then y else acc) x

/-- The Texas-plate cleanup block of `ml_utils.py` lines 132–150: strip the
known slogan strings, then keep the longest contiguous 6–8 character
alphanumeric block when one exists, otherwise the stripped text itself. -/
def plateCleanup (l : List Char) : List Char :=
  let c1 := replaceAll "THELONESTARSTATEKUAD".data [] l
  let c2 := replaceAll "THELONESTARSTATE".data [] c1
  let c3 := replaceAll "TEXAS".data [] c2
  let ms := findall68 c3
  if ms = [] then c3 else maxByLen ms

/-- Embeds `ocr_license_plate` (`ml_utils.py` lines 103–159) as a function
of the engine's spans: zero spans, or zero spans surviving cleaning, yield
`("", 0.0)`; otherwise the cleaned spans are concatenated in engine order,
their confidences averaged, and the concatenation is passed through the
Texas-plate cleanup before being returned. -/
def ocr_license_plate (spans : List (String × ℚ)) : String × ℚ :=
  match spans with
  | [] => ("", 0)
  | _ :: _ =>
    let u := usableSpans spans
    if u = [] then ("", 0)
    else
      (String.mk (plateCleanup ((u.map Prod.fst).flatten)),
        ((u.map Prod.snd).sum) / (u.length : ℚ))

/-! ### The capture cycle (`main.py` lines 194–245)

One triggered pass of the main loop, from `capture_photo()` through the
disposition branches.  The external collaborators are abstracted as an
environment: whether the camera call succeeds, what the detector returns
(`none` models both "no box" and a caught inference error, both of which
surface as `(None, 0.0)` from `detect_and_crop_license_plate`), the OCR
adapter's output on the crop, whether the roster lookup matches, and
whether each side-effecting call (`INSERT` into `verification_log`,
`os.remove`, `os.rename`, `cv2.imwrite`) succeeds or raises.  The result
records every observable of the cycle; a filesystem failure outside the
one guarded `try` of lines 227–237 sets `raised`, which the caller (the
`while` loop's enclosing `try` at line 168/253) treats as fatal. -/

/-- Terminal classification of a capture cycle (spec §3). -/
inductive Disposition where
  | AUTHORIZED
  | UNAUTHORIZED
  | FLAGGED_NO_TEXT
  | FLAGGED_NO_PLATE
  | CAPTURE_FAILED
  deriving DecidableEq, Repr

/-- What happened to the raw photo file. -/
inductive RawAction where
  | deleted
  | movedFlagged
  | kept
  deriving DecidableEq, Repr

/-- Outcome oracle for one cycle's external calls. -/
structure CycleEnv where
  captureOk : Bool
  detection : Option ℚ
  ocrText : String
  ocrConf : ℚ
  rosterMatch : Bool
  ledgerOk : Bool
  removeOk : Bool
  renameOk : Bool
  imwriteOk : Bool
  deriving DecidableEq, Repr

/-- Observables of one cycle. -/
structure CycleResult where
  disposition : Disposition
  hasImage : Bool
  detConf : ℚ
  recConf : ℚ
  overallConf : ℚ
  recognizedText : String
  ledgerAppends : ℕ
  rawAction : RawAction
  cropSaved : Bool
  detectCalled : Bool
  ocrCalled : Bool
  verifyCalled : Bool
  raised : Bool
  deriving DecidableEq, Repr

/-- Embeds `main.py` lines 199–245.  Control flow, in source order:
capture failure skips everything (lines 201–203); with a crop, the overall
confidence is `round((yolo_conf + ocr_conf) / 2, 3)` (line 210); non-empty
text reaches `verify_scanned_plate`, whose ledger `INSERT` is inside its
own `try` (`student_db.py` lines 159–174), then the raw photo is removed
(match, line 215) or renamed into `FLAGGED` (no match, line 220) with no
surrounding `try`; empty text runs `cv2.imwrite` + `os.remove` inside a
`try` whose `except` falls back to renaming the raw photo (lines 227–237,
the fallback rename itself unguarded); no crop renames the raw photo
(line 241, unguarded).  Quantities the code never computes in a branch are
recorded as `0` / `""` / `false`. -/
def runCycle (env : CycleEnv) : CycleResult :=
  if env.captureOk then
    match env.detection with
    | some y =>
      let conf := pyRoundTo 3 ((y + env.ocrConf) / 2)
      if env.ocrText = "" then
        if env.imwriteOk && env.removeOk then
          ⟨.FLAGGED_NO_TEXT, true, y, env.ocrConf, conf, env.ocrText, 0,
            .deleted, true, true, true, false, false⟩
        else
          ⟨.FLAGGED_NO_TEXT, true, y, env.ocrConf, conf, env.ocrText, 0,
            (if env.renameOk then .movedFlagged else .kept), env.imwriteOk,
            true, true, false, !env.renameOk⟩
      else
        if env.rosterMatch then
          ⟨.AUTHORIZED, true, y, env.ocrConf, conf, env.ocrText,
            (if env.ledgerOk then 1 else 0),
            (if env.removeOk then .deleted else .kept), false,
            true, true, true, !env.removeOk⟩
        else
          ⟨.UNAUTHORIZED, true, y, env.ocrConf, conf, env.ocrText,
            (if env.ledgerOk then 1 else 0),
            (if env.renameOk then .movedFlagged else .kept), false,
            true, true, true, !env.renameOk⟩
    | none =>
      ⟨.FLAGGED_NO_PLATE, true, 0, 0, 0, "", 0,
        (if env.renameOk then .movedFlagged else .kept), false,
        true, false, false, !env.renameOk⟩
  else
    ⟨.CAPTURE_FAILED, false, 0, 0, 0, "", 0, .kept, false,
      false, false, false, false⟩

/-- Embeds the steady-state control loop of `main.py` lines 168–254 over a
sequence of already-parsed frames, each given as its distance together
with the oracle for the cycle it would start.  A frame triggers a cycle
exactly when `distance < DISTANCE_THRESHOLD` (`= 10.0`, line 46/194).  An
exception escaping a cycle is caught only by the `try` enclosing the whole
`while` loop (line 253), which logs it as fatal and falls through to
shutdown: the loop terminates and later frames are never processed.
Returns the results of the cycles that ran and whether the loop died. -/
def runLoop : List (ℚ × CycleEnv) → List CycleResult × Bool
  | [] => ([], false)
  | (d, env) :: rest =>
    if d < 10 then
      let r := runCycle env
      if r.raised then ([r], true)
      else (r :: (runLoop rest).1, (runLoop rest).2)
    else runLoop rest

/-- Total number of ledger rows inserted over a run. -/
def ledgerTotal (frames : List (ℚ × CycleEnv)) : ℕ :=
  (((runLoop frames).1).map CycleResult.ledgerAppends).sum

/-! ### Timing of the trigger over a live stream (`main.py` lines 168–249)

Frames arrive on the serial transport at given times (ℕ time units).  The
transport (pyserial over an OS tty buffer) queues lines that arrive while
the loop is blocked in `time.sleep(4)` (line 245), and `ser.readline()`
then drains them in FIFO order, so every frame is eventually processed —
a frame that arrived at time `a` is processed at `max a ready` where
`ready` is when the loop finished its previous work.  Each processed frame
with distance below the threshold starts a capture cycle (assumed here to
capture successfully, so the `time.sleep(4)` at line 245 runs and the loop
is next ready 4 units later).  Returns, for every frame that fired a
capture, the pair (arrival time of the frame, time its capture ran). -/
def runBufferedAux (ready : ℕ) : List (ℕ × ℚ) → List (ℕ × ℕ)
  | [] => []
  | (a, d) :: rest =>
    let t := max ready a
    if d < 10 then (a, t) :: runBufferedAux (t + 4) rest
    else runBufferedAux t rest

/-! ### Helper lemmas shared by the claim theorems below -/

/-- Unfolding lemma for one step of the control loop. -/
theorem runLoop_cons (d : ℚ) (env : CycleEnv) (rest : List (ℚ × CycleEnv)) :
    runLoop ((d, env) :: rest) =
      if d < 10 then
        (if (runCycle env).raised then ([runCycle env], true)
         else (runCycle env :: (runLoop rest).1, (runLoop rest).2))
      else runLoop rest := rfl

/-- When the ledger insert succeeds, a cycle appends one row exactly when it
reached `verify_scanned_plate`. -/
theorem runCycle_ledger_if (env : CycleEnv) (h : env.ledgerOk = true) :
    (runCycle env).ledgerAppends = if (runCycle env).verifyCalled then 1 else 0 := by
  obtain ⟨co, det, txt, oc, m, lok, rok, mok, iok⟩ := env
  cases lok
  · simp at h
  · cases co <;> cases det <;> by_cases ht : txt = "" <;> cases m <;> cases iok <;> cases rok <;>
      simp [runCycle, ht]

/-- A line whose distance field converts to the distance sentinel is
rejected as a whole. -/
theorem parse_rejects_sentinel (line : String) (p0 p1 p2 : List Char)
    (hsplit : splitOnChar ',' (trimChars line.data) = [p0, p1, p2])
    (hdist : extract_and_convert p0 (-1) = -1) :
    parse_serial_line line = none := by
  rw [parse_serial_line, hsplit]
  simp [hdist]

/-- Decimal value of the token `8.5`. -/
theorem tokenToRat_85 : tokenToRat ['8', '.', '5'] = 8.5 := by
  have hp : tokenParts ['8', '.', '5'] = (false, ['8'], ['5']) := by decide
  have hd : digitsVal (['8'] ++ ['5']) = 85 := by decide
  rw [tokenToRat, hp]
  simp only []
  rw [hd]
  norm_num

/-! ### C1 -/

/-- Claim C1 (code_bug evidence).  With threshold 10 and the 4-unit
post-capture `time.sleep(4)` of `main.py` line 245, feeding the distances
`[60, 60, 8, 8, 8, 60, 8]` at 1-unit spacing (arrival times 0..6) over the
buffering serial transport does NOT fire exactly two captures: the loop
fires four, at times 2, 6, 10 and 14, for the frames that arrived at times
2, 3, 4 and 6.  The `sleep` only delays the queued sub-threshold frames
(pyserial/the OS tty buffer retains them and `ser.readline()` drains them
FIFO); it never suppresses them, so each intervening `8` re-triggers a
capture after the previous sleep ends, contradicting the claimed
cooldown/debounce behaviour in which the intervening `8`s fire nothing. -/
theorem C1_buffered_sleep_retriggers :
    runBufferedAux 0 [(0, 60), (1, 60), (2, 8), (3, 8), (4, 8), (5, 60), (6, 8)] =
      [(2, 2), (3, 6), (4, 10), (6, 14)]
    ∧ (runBufferedAux 0 [(0, 60), (1, 60), (2, 8), (3, 8), (4, 8), (5, 60), (6, 8)]).length
        = 4 := by
  exact ⟨by decide, by decide⟩

/-! ### C2 -/

/-- Claim C2 (confirmed).  For a completed capture attempt (capture
succeeded and every filing action succeeds), the disposition and filing
action follow the top-down decision table of `main.py` lines 205–243:
a detected region with non-empty recognized text and a roster match is
AUTHORIZED and the raw photo is deleted; non-empty text with no match is
UNAUTHORIZED and the raw photo is moved to flagged storage; a detected
region with empty text is FLAGGED_NO_TEXT, the cropped region is saved to
flagged storage and the raw photo removed; no detected region is
FLAGGED_NO_PLATE and the raw photo is moved to flagged storage. -/
theorem C2_disposition_table :
    (∀ (y oc : ℚ) (txt : String) (m lok : Bool),
      ((runCycle ⟨true, some y, txt, oc, m, lok, true, true, true⟩).disposition =
        (if txt = "" then .FLAGGED_NO_TEXT else if m then .AUTHORIZED else .UNAUTHORIZED))
      ∧ ((runCycle ⟨true, some y, txt, oc, m, lok, true, true, true⟩).rawAction =
        (if txt = "" then .deleted else if m then .deleted else .movedFlagged))
      ∧ ((runCycle ⟨true, some y, txt, oc, m, lok, true, true, true⟩).cropSaved =
        (if txt = "" then true else false))
      ∧ ((runCycle ⟨true, some y, txt, oc, m, lok, true, true, true⟩).raised = false))
    ∧ (∀ (oc : ℚ) (txt : String) (m lok : Bool),
      ((runCycle ⟨true, none, txt, oc, m, lok, true, true, true⟩).disposition =
        .FLAGGED_NO_PLATE)
      ∧ ((runCycle ⟨true, none, txt, oc, m, lok, true, true, true⟩).rawAction =
        .movedFlagged)
      ∧ ((runCycle ⟨true, none, txt, oc, m, lok, true, true, true⟩).raised = false)) := by
  constructor
  · intro y oc txt m lok
    by_cases h : txt = "" <;> cases m <;> simp [runCycle, h]
  · intro oc txt m lok
    simp [runCycle]

/-! ### C3 -/

/-- Claim C3 (confirmed).  The parser returns a frame only for three-field
comma-separated lines, strips trailing unit suffixes before numeric
conversion, maps the sentinel token `N/A` in temperature/battery to the
in-frame absence encoding (`-999.0` / `-1.0`, which the publisher renders
as null), and rejects the whole line whenever the distance field is the
sentinel or unparsable.  Concretely:
`"distance: 8.5cm, temperature: 98.6F, battery: 55%"` parses to
`(8.5, 98.6, 55)`; `"distance: N/A, temperature: 70, battery: 50"` is
rejected; `"distance: 8.5, temperature: N/A, battery: N/A"` parses with
distance `8.5` and temperature/battery carrying the absence encodings,
which publish as null. -/
theorem C3_parser_contract :
    parse_serial_line "distance: 8.5cm, temperature: 98.6F, battery: 55%" =
      some (8.5, 98.6, 55)
    ∧ parse_serial_line "distance: N/A, temperature: 70, battery: 50" = none
    ∧ parse_serial_line "distance: 8.5, temperature: N/A, battery: N/A" =
      some (8.5, -999, -1)
    ∧ (∀ now : ℚ, (mkSensorJson (-999) (-1) (8.5 : ℚ) now).temperature = none
        ∧ (mkSensorJson (-999) (-1) (8.5 : ℚ) now).battery = none)
    ∧ (∀ line : String, (splitOnChar ',' (trimChars line.data)).length ≠ 3 →
        parse_serial_line line = none)
    ∧ (∀ (line : String) (p0 p1 p2 : List Char),
        splitOnChar ',' (trimChars line.data) = [p0, p1, p2] →
        extract_and_convert p0 (-1) = -1 → parse_serial_line line = none) := by
  refine ⟨?_, ?_, ?_, ?_, ?_, ?_⟩
  · have h0 : splitOnChar ',' (trimChars
        ("distance: 8.5cm, temperature: 98.6F, battery: 55%").data)
        = ["distance: 8.5cm".data, " temperature: 98.6F".data, " battery: 55%".data] := by
      decide
    have e0 : extract_and_convert ("distance: 8.5cm").data (-1) =
        tokenToRat ['8', '.', '5'] := rfl
    have e1 : extract_and_convert (" temperature: 98.6F").data (-999) =
        tokenToRat ['9', '8', '.', '6'] := rfl
    have e2 : extract_and_convert (" battery: 55%").data (-1) = tokenToRat ['5', '5'] := rfl
    have v1 : tokenToRat ['9', '8', '.', '6'] = 98.6 := by
      have hp : tokenParts ['9', '8', '.', '6'] = (false, ['9', '8'], ['6']) := by decide
      have hd : digitsVal (['9', '8'] ++ ['6']) = 986 := by decide
      rw [tokenToRat, hp]
      simp only []
      rw [hd]
      norm_num
    have v2 : tokenToRat ['5', '5'] = 55 := by
      have hp : tokenParts ['5', '5'] = (false, ['5', '5'], []) := by decide
      have hd : digitsVal (['5', '5'] ++ []) = 55 := by decide
      rw [tokenToRat, hp]
      simp only []
      rw [hd]
      norm_num
    rw [parse_serial_line, h0]
    simp only [e0, e1, e2, tokenToRat_85, v1, v2]
    rw [if_neg (by norm_num)]
  · have h0 : splitOnChar ',' (trimChars
        ("distance: N/A, temperature: 70, battery: 50").data)
        = ["distance: N/A".data, " temperature: 70".data, " battery: 50".data] := by decide
    have h1 : extract_and_convert ("distance: N/A").data (-1) = -1 := rfl
    rw [parse_serial_line, h0]
    simp [h1]
  · have h0 : splitOnChar ',' (trimChars
        ("distance: 8.5, temperature: N/A, battery: N/A").data)
        = ["distance: 8.5".data, " temperature: N/A".data, " battery: N/A".data] := by decide
    have e0 : extract_and_convert ("distance: 8.5").data (-1) =
        tokenToRat ['8', '.', '5'] := rfl
    have e1 : extract_and_convert (" temperature: N/A").data (-999) = -999 := rfl
    have e2 : extract_and_convert (" battery: N/A").data (-1) = -1 := rfl
    rw [parse_serial_line, h0]
    simp only [e0, e1, e2, tokenToRat_85]
    rw [if_neg (by norm_num)]
  · intro now
    constructor <;> simp [mkSensorJson]
  · intro line h
    rw [parse_serial_line]
    rcases hs : splitOnChar ',' (trimChars line.data) with
        _ | ⟨p0, _ | ⟨p1, _ | ⟨p2, _ | ⟨p3, t⟩⟩⟩⟩ <;> simp_all
  · exact parse_rejects_sentinel

/-- Witness for C3: the three-field conjunct applied to a two-field line,
and the sentinel-rejection conjunct applied to the `N/A` line. -/
theorem C3_parser_contract_witness :
    parse_serial_line "distance: 8.5, battery: 50" = none
    ∧ parse_serial_line "distance: N/A, temperature: 70, battery: 50" = none :=
  ⟨C3_parser_contract.2.2.2.2.1 "distance: 8.5, battery: 50" (by decide),
   C3_parser_contract.2.2.2.2.2 "distance: N/A, temperature: 70, battery: 50"
     ("distance: N/A").data (" temperature: 70").data (" battery: 50").data
     (by decide) (by decide)⟩

/-! ### C4 -/

/-- Claim C4 (counterexample).  A cycle that reaches the recognition step
with a detected region whose recognized text is empty (disposition
FLAGGED_NO_TEXT) evaluates text but appends NO ledger entry, because
`main.py` line 212 calls `verify_scanned_plate` — the only ledger writer —
only for non-empty text.  This falsifies the claimed "entry iff the cycle
reached a recognition attempt" at a concrete input. -/
theorem C4_no_text_cycle_skips_ledger :
    (runCycle ⟨true, some (9 / 10), "", 0, false, true, true, true, true⟩).ocrCalled = true
    ∧ (runCycle ⟨true, some (9 / 10), "", 0, false, true, true, true, true⟩).ledgerAppends
        = 0 :=
  ⟨rfl, rfl⟩

/-- Claim C4 (amended).  Exactly one VerificationLedgerEntry is appended
iff the cycle reached roster verification, i.e. the capture succeeded, a
region was detected AND the recognized text was non-empty (and the ledger
insert itself succeeded); CAPTURE_FAILED, FLAGGED_NO_PLATE and also
FLAGGED_NO_TEXT produce no entry.  Over a run, the ledger total equals the
number of cycles that reached verification, and it is monotonically
non-decreasing as the run is extended. -/
theorem C4_ledger_iff_verification :
    (∀ env : CycleEnv,
      (runCycle env).ledgerAppends =
        if env.ledgerOk && (runCycle env).verifyCalled then 1 else 0)
    ∧ (∀ env : CycleEnv,
      ((runCycle env).verifyCalled = true ↔
        (env.captureOk = true ∧ env.detection.isSome = true ∧ env.ocrText ≠ "")))
    ∧ (∀ frames : List (ℚ × CycleEnv), (∀ p ∈ frames, p.2.ledgerOk = true) →
        ledgerTotal frames = ((runLoop frames).1.countP fun r => r.verifyCalled))
    ∧ (∀ l₁ l₂ : List (ℚ × CycleEnv), ledgerTotal l₁ ≤ ledgerTotal (l₁ ++ l₂)) := by
  refine ⟨?_, ?_, ?_, ?_⟩
  · intro env
    obtain ⟨co, det, txt, oc, m, lok, rok, mok, iok⟩ := env
    cases co <;> cases det <;> by_cases ht : txt = "" <;> cases m <;> cases lok <;>
      cases iok <;> cases rok <;> simp [runCycle, ht]
  · intro env
    obtain ⟨co, det, txt, oc, m, lok, rok, mok, iok⟩ := env
    cases co <;> cases det <;> by_cases ht : txt = "" <;> cases m <;> cases iok <;>
      cases rok <;> simp [runCycle, ht]
  · intro frames h
    induction frames with
    | nil => simp [ledgerTotal, runLoop]
    | cons hd tl ih =>
      obtain ⟨d, env⟩ := hd
      have henv : env.ledgerOk = true := h (d, env) (by simp)
      have htl : ∀ p ∈ tl, p.2.ledgerOk = true := fun p hp => h p (by simp [hp])
      by_cases hd10 : d < 10
      · by_cases hr : (runCycle env).raised
        · simp [ledgerTotal, runLoop_cons, hd10, hr, List.countP_cons,
            runCycle_ledger_if env henv]
        · have hih := ih htl
          simp [ledgerTotal, runLoop_cons, hd10, hr, List.countP_cons] at hih ⊢
          rw [runCycle_ledger_if env henv]
          by_cases hv : (runCycle env).verifyCalled
          · simp [hv, hih]
            omega
          · simp [hv, hih]
      · simpa [ledgerTotal, runLoop_cons, hd10] using ih htl
  · intro l₁ l₂
    induction l₁ with
    | nil => simp [ledgerTotal, runLoop]
    | cons hd tl ih =>
      obtain ⟨d, env⟩ := hd
      by_cases hd10 : d < 10
      · by_cases hr : (runCycle env).raised
        · simp [ledgerTotal, runLoop_cons, hd10, hr]
        · simp [ledgerTotal, runLoop_cons, hd10, hr] at ih ⊢
          omega
      · simpa [ledgerTotal, runLoop_cons, hd10] using ih

/-- Witness for C4: the run-level count equality at a concrete two-frame
run whose first frame triggers an AUTHORIZED cycle and whose second frame
is above threshold. -/
theorem C4_ledger_iff_verification_witness :
    ledgerTotal
        [((8 : ℚ), ⟨true, some 1, "ABC123", 1, true, true, true, true, true⟩),
         ((60 : ℚ), ⟨true, some 1, "ABC123", 1, true, true, true, true, true⟩)] =
      ((runLoop
          [((8 : ℚ), ⟨true, some 1, "ABC123", 1, true, true, true, true, true⟩),
           ((60 : ℚ), ⟨true, some 1, "ABC123", 1, true, true, true, true, true⟩)]).1.countP
        fun r => r.verifyCalled) :=
  C4_ledger_iff_verification.2.2.1 _ (by decide)

/-! ### C5 -/

/-- Claim C5 (counterexample).  A failed `os.rename` in the UNAUTHORIZED
branch (`main.py` line 220, not wrapped in any `try`) raises out of the
cycle; the loop's only handler is the `try` enclosing the whole `while`
(line 253), which logs the error as fatal and exits.  Concretely, in a
two-frame run whose first frame triggers an unauthorized cycle with a
failing rename, the loop dies and the second frame is never processed —
the loop does not remain live as claimed. -/
theorem C5_filing_failure_kills_loop :
    (runLoop
        [((8 : ℚ), ⟨true, some (9 / 10), "ZZZ999", 4 / 5, false, true, true, false, true⟩),
         ((8 : ℚ), ⟨true, some (9 / 10), "ABC123", 4 / 5, true, true, true, true, true⟩)]).2
      = true
    ∧ (runLoop
        [((8 : ℚ), ⟨true, some (9 / 10), "ZZZ999", 4 / 5, false, true, true, false, true⟩),
         ((8 : ℚ), ⟨true, some (9 / 10), "ABC123", 4 / 5, true, true, true, true, true⟩)]).1.length
      = 1 :=
  ⟨by decide, by decide⟩

/-- Claim C5 (amended).  Only the cropped-region filing step is
best-effort: a failure inside the guarded `try` of `main.py` lines 227-231
(of `cv2.imwrite` or of the following `os.remove`, in any combination) is
logged and handled by the fallback of moving the raw photo to flagged
storage, and the loop continues with the next frame.  A failure of the
raw-photo delete in the AUTHORIZED branch (line 215), of the move in the
UNAUTHORIZED (line 220) or FLAGGED_NO_PLATE (line 241) branches, or of the
fallback move itself (line 235), instead propagates out of the cycle and
terminates the control loop after a fatal log.  The five conjuncts cover,
in order: the no-text branch with a working fallback (all four
imwrite/remove outcomes), and the four fatal cases just listed. -/
theorem C5_filing_best_effort_only_for_crop :
    (∀ (y oc : ℚ) (m lok rok iok : Bool) (d : ℚ) (rest : List (ℚ × CycleEnv)),
      ((runCycle ⟨true, some y, "", oc, m, lok, rok, true, iok⟩).raised = false)
      ∧ ((runCycle ⟨true, some y, "", oc, m, lok, rok, true, iok⟩).rawAction =
          (if iok && rok then .deleted else .movedFlagged))
      ∧ ((runCycle ⟨true, some y, "", oc, m, lok, rok, true, iok⟩).cropSaved = iok)
      ∧ (runLoop ((d, ⟨true, some y, "", oc, m, lok, rok, true, iok⟩) :: rest) =
          if d < 10 then
            (runCycle ⟨true, some y, "", oc, m, lok, rok, true, iok⟩ :: (runLoop rest).1,
              (runLoop rest).2)
          else runLoop rest))
    ∧ (∀ (y oc : ℚ) (txt : String) (lok mok iok : Bool) (d : ℚ)
        (rest : List (ℚ × CycleEnv)), txt ≠ "" →
      ((runCycle ⟨true, some y, txt, oc, true, lok, false, mok, iok⟩).raised = true)
      ∧ (runLoop ((d, ⟨true, some y, txt, oc, true, lok, false, mok, iok⟩) :: rest) =
          if d < 10 then
            ([runCycle ⟨true, some y, txt, oc, true, lok, false, mok, iok⟩], true)
          else runLoop rest))
    ∧ (∀ (y oc : ℚ) (txt : String) (lok rok iok : Bool) (d : ℚ)
        (rest : List (ℚ × CycleEnv)), txt ≠ "" →
      ((runCycle ⟨true, some y, txt, oc, false, lok, rok, false, iok⟩).raised = true)
      ∧ (runLoop ((d, ⟨true, some y, txt, oc, false, lok, rok, false, iok⟩) :: rest) =
          if d < 10 then
            ([runCycle ⟨true, some y, txt, oc, false, lok, rok, false, iok⟩], true)
          else runLoop rest))
    ∧ (∀ (txt : String) (oc : ℚ) (m lok rok iok : Bool) (d : ℚ)
        (rest : List (ℚ × CycleEnv)),
      ((runCycle ⟨true, none, txt, oc, m, lok, rok, false, iok⟩).raised = true)
      ∧ (runLoop ((d, ⟨true, none, txt, oc, m, lok, rok, false, iok⟩) :: rest) =
          if d < 10 then
            ([runCycle ⟨true, none, txt, oc, m, lok, rok, false, iok⟩], true)
          else runLoop rest))
    ∧ (∀ (y oc : ℚ) (m lok rok iok : Bool) (d : ℚ) (rest : List (ℚ × CycleEnv)),
      ((runCycle ⟨true, some y, "", oc, m, lok, rok, false, iok⟩).raised = !(iok && rok))
      ∧ (runLoop ((d, ⟨true, some y, "", oc, m, lok, rok, false, iok⟩) :: rest) =
          if d < 10 then
            (if iok && rok then
              (runCycle ⟨true, some y, "", oc, m, lok, rok, false, iok⟩ :: (runLoop rest).1,
                (runLoop rest).2)
             else ([runCycle ⟨true, some y, "", oc, m, lok, rok, false, iok⟩], true))
          else runLoop rest)) := by
  refine ⟨?_, ?_, ?_, ?_, ?_⟩
  · intro y oc m lok rok iok d rest
    refine ⟨?_, ?_, ?_, ?_⟩
    · cases iok <;> cases rok <;> simp [runCycle]
    · cases iok <;> cases rok <;> simp [runCycle]
    · cases iok <;> cases rok <;> simp [runCycle]
    · by_cases hd : d < 10 <;> cases iok <;> cases rok <;> simp [runLoop_cons, hd, runCycle]
  · intro y oc txt lok mok iok d rest htxt
    refine ⟨by simp [runCycle, htxt], ?_⟩
    by_cases hd : d < 10 <;> simp [runLoop_cons, hd, runCycle, htxt]
  · intro y oc txt lok rok iok d rest htxt
    refine ⟨by simp [runCycle, htxt], ?_⟩
    by_cases hd : d < 10 <;> simp [runLoop_cons, hd, runCycle, htxt]
  · intro txt oc m lok rok iok d rest
    refine ⟨by simp [runCycle], ?_⟩
    by_cases hd : d < 10 <;> simp [runLoop_cons, hd, runCycle]
  · intro y oc m lok rok iok d rest
    refine ⟨?_, ?_⟩
    · cases iok <;> cases rok <;> simp [runCycle]
    · by_cases hd : d < 10 <;> cases iok <;> cases rok <;> simp [runLoop_cons, hd, runCycle]

/-- Witness for C5: the fatal AUTHORIZED-delete and UNAUTHORIZED-move
conjuncts applied at concrete non-empty plate texts. -/
theorem C5_filing_best_effort_only_for_crop_witness :
    ((runCycle ⟨true, some 1, "ABC123", 1, true, true, false, true, true⟩).raised = true)
    ∧ ((runCycle ⟨true, some 1, "ZZZ999", 1, false, true, true, false, true⟩).raised =
        true) :=
  ⟨(C5_filing_best_effort_only_for_crop.2.1 1 1 "ABC123" true true true 0 []
      (by decide)).1,
   (C5_filing_best_effort_only_for_crop.2.2.1 1 1 "ZZZ999" true true true 0 []
      (by decide)).1⟩

/-! ### C6 -/

/-- Claim C6 (counterexample).  The capture cycle CAN throw to its caller:
with a successful capture, a detected region, non-empty matched text and a
failing `os.remove` (`main.py` line 215, unguarded), the AUTHORIZED branch
raises out of the cycle. -/
theorem C6_cycle_can_raise :
    (runCycle ⟨true, some (9 / 10), "ABC123", 4 / 5, true, true, false, true, true⟩).raised
      = true := by
  decide

/-- Claim C6 (amended).  When the capture device fails, the cycle never
raises: `capture_photo` catches every exception and returns `None`
(`main.py` lines 129–138), and the loop skips detection, recognition,
verification and all filing (lines 201–203), completing the cycle as
CAPTURE_FAILED with no image and zeroed confidences, then continues with
the next telemetry frame.  (The unqualified "never throws to its caller"
of the original claim fails only for filing failures, per
`C6_cycle_can_raise`.) -/
theorem C6_capture_failure_is_soft :
    ∀ (det : Option ℚ) (txt : String) (oc : ℚ) (m lok rok mok iok : Bool) (d : ℚ)
      (rest : List (ℚ × CycleEnv)),
      (runCycle ⟨false, det, txt, oc, m, lok, rok, mok, iok⟩ =
        ⟨.CAPTURE_FAILED, false, 0, 0, 0, "", 0, .kept, false, false, false, false, false⟩)
      ∧ (runLoop ((d, ⟨false, det, txt, oc, m, lok, rok, mok, iok⟩) :: rest) =
          if d < 10 then
            ((⟨.CAPTURE_FAILED, false, 0, 0, 0, "", 0, .kept, false, false, false, false,
                false⟩ : CycleResult) :: (runLoop rest).1, (runLoop rest).2)
          else runLoop rest) := by
  intro det txt oc m lok rok mok iok d rest
  refine ⟨by simp [runCycle], ?_⟩
  by_cases hd : d < 10 <;> simp [runLoop_cons, hd, runCycle]

/-! ### C7 -/

/-- Claim C7 (counterexample).  The adapter's returned text is NOT the
plain concatenation of the alphanumeric-cleaned uppercased spans: on spans
`[("Texas", 0.9), ("ABC1234", 0.8)]` the concatenation is
`"TEXASABC1234"`, but the Texas-plate cleanup of `ml_utils.py` lines
132–150 strips the `TEXAS` slogan and extracts the 6–8 character block, so
the adapter returns `"ABC1234"`. -/
theorem C7_cleanup_breaks_concatenation :
    (ocr_license_plate [("Texas", 9 / 10), ("ABC1234", 4 / 5)]).1 = "ABC1234"
    ∧ String.mk
        (((usableSpans [("Texas", 9 / 10), ("ABC1234", 4 / 5)]).map Prod.fst).flatten)
      = "TEXASABC1234"
    ∧ ("ABC1234" : String) ≠ "TEXASABC1234" :=
  ⟨by decide, by decide, by decide⟩

/-- Claim C7 (amended).  For a non-empty cropped region the adapter
concatenates, in engine order, the alphanumeric-cleaned uppercased spans
and averages the confidences of exactly those cleaned spans that are
non-empty — but the returned text is that concatenation passed through the
Texas-plate cleanup (slogan substrings removed, then the longest
contiguous 6–8 character alphanumeric block when one exists, else the
stripped concatenation itself).  Zero spans, or zero spans surviving
cleaning, yield `("", 0.0)`. -/
theorem C7_text_is_cleanup_of_concatenation :
    ∀ spans : List (String × ℚ),
      ocr_license_plate spans =
        if usableSpans spans = [] then ("", 0)
        else
          (String.mk (plateCleanup (((usableSpans spans).map Prod.fst).flatten)),
            (((usableSpans spans).map Prod.snd).sum) / ((usableSpans spans).length : ℚ)) := by
  intro spans
  cases spans with
  | nil => simp [ocr_license_plate, usableSpans]
  | cons a l => rw [ocr_license_plate]

/-! ### C8 -/

/-- Claim C8 (confirmed).  For every capture attempt that reaches
recognition (capture succeeded, region detected), the overall confidence
handed to the disposition step is `round((yolo_conf + ocr_conf) / 2, 3)`
(`main.py` line 210): the arithmetic mean of detection and recognition
confidence rounded to 3 decimal digits; in particular 0.9 and 0.8 yield
0.850. -/
theorem C8_overall_confidence_mean_round3 :
    (∀ (y oc : ℚ) (txt : String) (m lok rok mok iok : Bool),
      (runCycle ⟨true, some y, txt, oc, m, lok, rok, mok, iok⟩).overallConf =
        pyRoundTo 3 ((y + oc) / 2))
    ∧ pyRoundTo 3 (((0.9 : ℚ) + 0.8) / 2) = 0.85 := by
  constructor
  · intro y oc txt m lok rok mok iok
    by_cases h : txt = "" <;> cases m <;> cases iok <;> cases rok <;> simp [runCycle, h]
  · rw [pyRoundTo, pyRoundHalfEven]
    norm_num

/-! ### C9 -/

/-- Claim C9 (confirmed).  Publishing a frame overwrites the snapshot
resource wholesale without reading its previous state (`main.py` lines
52–67: the dictionary is rebuilt from the frame and `json.dump` rewrites
the file opened in mode `"w"`), so publishing the same frame twice (at the
same write time, `last_update` being the wall clock passed as `now`)
leaves the resource in exactly the state of publishing it once, and the
resulting state does not depend on the prior state at all. -/
theorem C9_publish_idempotent :
    ∀ temp battery distance_value now : ℚ,
      (∀ s, publishStep temp battery distance_value now
          (publishStep temp battery distance_value now s) =
        publishStep temp battery distance_value now s)
      ∧ (∀ s₁ s₂, publishStep temp battery distance_value now s₁ =
          publishStep temp battery distance_value now s₂)
      ∧ (∀ s, publishStep temp battery distance_value now s =
          some (mkSensorJson temp battery distance_value now)) :=
  fun _ _ _ _ => ⟨fun _ => rfl, fun _ _ => rfl, fun _ => rfl⟩

/-! ### C10 -/

/-- Claim C10 (confirmed).  The in-band sentinel encoding collides with
legitimate wire values: a line whose distance field numerically parses to
exactly `-1.0` (the token is a real numeric match, not `N/A`) is rejected
wholesale exactly as if it were `N/A`; and any temperature equal to
`-999.0` or battery equal to `-1.0` is published as null even when it
arrived as a legitimate number. -/
theorem C10_inband_sentinel_collisions :
    (searchNum (trimChars (afterLastColon ("distance: -1.0").data)) =
        some ['-', '1', '.', '0']
      ∧ trimChars (afterLastColon ("distance: -1.0").data) ≠ ("N/A").data
      ∧ tokenToRat ['-', '1', '.', '0'] = -1
      ∧ parse_serial_line "distance: -1.0, temperature: 70, battery: 50" = none)
    ∧ (∀ (line : String) (p0 p1 p2 tok : List Char),
        splitOnChar ',' (trimChars line.data) = [p0, p1, p2] →
        searchNum (trimChars (afterLastColon p0)) = some tok →
        tokenToRat tok = -1 →
        parse_serial_line line = none)
    ∧ (∀ b d now : ℚ, (mkSensorJson (-999) b d now).temperature = none)
    ∧ (∀ t d now : ℚ, (mkSensorJson t (-1) d now).battery = none) := by
  have htok : tokenToRat ['-', '1', '.', '0'] = -1 := by
    have hp : tokenParts ['-', '1', '.', '0'] = (true, ['1'], ['0']) := by decide
    have hd : digitsVal (['1'] ++ ['0']) = 10 := by decide
    rw [tokenToRat, hp]
    simp only []
    rw [hd]
    norm_num
  have huniv : ∀ (line : String) (p0 p1 p2 tok : List Char),
      splitOnChar ',' (trimChars line.data) = [p0, p1, p2] →
      searchNum (trimChars (afterLastColon p0)) = some tok →
      tokenToRat tok = -1 →
      parse_serial_line line = none := by
    intro line p0 p1 p2 tok hsplit hsearch ht
    refine parse_rejects_sentinel line p0 p1 p2 hsplit ?_
    rw [extract_and_convert]
    by_cases hna : trimChars (afterLastColon p0) = ("N/A").data
    · simp [hna]
    · simp [hna, hsearch, ht]
  refine ⟨⟨by decide, by decide, htok, ?_⟩, huniv, ?_, ?_⟩
  · exact huniv "distance: -1.0, temperature: 70, battery: 50"
      ("distance: -1.0").data (" temperature: 70").data (" battery: 50").data
      ['-', '1', '.', '0'] (by decide) (by decide) htok
  · intro b d now
    simp [mkSensorJson]
  · intro t d now
    simp [mkSensorJson]

/-- Witness for C10: the numeric-sentinel rejection conjunct applied to
the concrete line `"distance: -1.0, temperature: 50, battery: 60"`. -/
theorem C10_inband_sentinel_collisions_witness :
    parse_serial_line "distance: -1.0, temperature: 50, battery: 60" = none :=
  C10_inband_sentinel_collisions.2.1 "distance: -1.0, temperature: 50, battery: 60"
    ("distance: -1.0").data (" temperature: 50").data (" battery: 60").data
    ['-', '1', '.', '0'] (by decide) (by decide)
    (by
      have hp : tokenParts ['-', '1', '.', '0'] = (true, ['1'], ['0']) := by decide
      have hd : digitsVal (['1'] ++ ['0']) = 10 := by decide
      rw [tokenToRat, hp]
      simp only []
      rw [hd]
      norm_num)
